import Mathlib

/-!
Verification development for the mekus-virtual-canvas repository.

Shallow embedding of the drawing/gesture/menu logic from:
- src/modules/hand_tracker.py  (gesture classification, draw-mode list)
- src/modules/drawing.py       (color and shape constants)
- src/modules/menu.py          (buttons, hit-testing, mouse handler, compositor)
- src/main.py                  (interaction loop, canvas drawing state machine)

Landmark coordinates and alpha arithmetic are modelled over the rationals;
pixel coordinates and channel values over the integers.  External OpenCV
rasterization primitives (cv2.line / cv2.circle / cv2.rectangle), which are
out of scope in the source, are modelled explicitly below from the spec's
description of the rasterization entry points.
-/

namespace MekusCanvas

/-- A BGR color triple, as used throughout drawing.py and menu.py. -/
abbrev Color : Type := ℤ × ℤ × ℤ

/-- drawing.py color constants (BGR). -/
def RED : Color := (0, 0, 255)

def GREEN : Color := (0, 255, 0)

def BLUE : Color := (255, 0, 0)

def YELLOW : Color := (0, 255, 255)

def PURPLE : Color := (255, 0, 255)

def CYAN : Color := (255, 255, 0)

def WHITE : Color := (255, 255, 255)

def BLACK : Color := (0, 0, 0)

def ORANGE : Color := (0, 165, 255)

def PINK : Color := (203, 192, 255)

def INDIGO : Color := (130, 0, 75)

def VIOLET : Color := (238, 130, 238)

/-- drawing.py: COLORS list used by the UI. -/
def COLORS : List Color :=
  [RED, GREEN, BLUE, YELLOW, PURPLE, CYAN, WHITE, BLACK, ORANGE, PINK, INDIGO, VIOLET]

/-- drawing.py: the free-draw tool tag. -/
def FREE_DRAW : String := "Free Draw"

/-- drawing.py: SHAPES list (the src version contains only FREE_DRAW). -/
def SHAPES : List String := [FREE_DRAW]

/-- Modelled from the spec: the SHAPE_LINE tool tag imported by menu.py is
absent from src/modules/drawing.py; per spec section 4.4 the shape tools are
line, rectangle and circle, modelled here as distinct string tags. -/
def SHAPE_LINE : String := "Line"

/-- Modelled from the spec: the SHAPE_RECTANGLE tool tag imported by menu.py
is absent from src/modules/drawing.py. -/
def SHAPE_RECTANGLE : String := "Rectangle"

/-- Modelled from the spec: the SHAPE_CIRCLE tool tag imported by menu.py is
absent from src/modules/drawing.py. -/
def SHAPE_CIRCLE : String := "Circle"

/-- Modelled from the spec: the CLEAR label imported by menu.py is absent from
src/modules/drawing.py; it is only a button label. -/
def CLEAR : String := "Clear"

/-! ## Hand tracker (src/modules/hand_tracker.py) -/

/-- One MediaPipe hand landmark: normalized x/y coordinates. -/
structure Landmark where
  x : ℚ
  y : ℚ

/-- A detected hand: the fixed-size ordered landmark set, indexed by the
MediaPipe landmark number (hand.landmark[i] in the source). -/
abbrev Hand : Type := ℕ → Landmark

/-- The four joint landmark indices of one tracked finger
(FINGER_LANDMARKS entries in hand_tracker.py). -/
structure FingerJoints where
  mcp : ℕ
  pip : ℕ
  dip : ℕ
  tip : ℕ

/-- FINGER_LANDMARKS["INDEX_FINGER"] = MCP 5, PIP 6, DIP 7, TIP 8. -/
def INDEX_JOINTS : FingerJoints := ⟨5, 6, 7, 8⟩

/-- FINGER_LANDMARKS["MIDDLE_FINGER"] = MCP 9, PIP 10, DIP 11, TIP 12. -/
def MIDDLE_JOINTS : FingerJoints := ⟨9, 10, 11, 12⟩

/-- HandTracker.is_finger_raised: the chained strict comparison
y[TIP] < y[DIP] < y[PIP] < y[MCP] on the joint y-coordinates. -/
def is_finger_raised (hand : Hand) (joints : FingerJoints) : Bool :=
  decide ((hand joints.tip).y < (hand joints.dip).y ∧
    (hand joints.dip).y < (hand joints.pip).y ∧
    (hand joints.pip).y < (hand joints.mcp).y)

/-- The per-hand raised-finger dictionary restricted to the two tracked
fingers (HandTracker.check_hand_fingers). -/
structure FingerState where
  index : Bool
  middle : Bool
deriving DecidableEq

/-- HandTracker.check_hand_fingers for one hand. -/
def check_hand_fingers (hand : Hand) : FingerState :=
  ⟨is_finger_raised hand INDEX_JOINTS, is_finger_raised hand MIDDLE_JOINTS⟩

/-- HandTracker.update_drawing_mode: sets draw_modes to [False]*len(raised),
returns early when the global drawing-mode toggle is off, and otherwise
APPENDS the computed per-hand intent to the already-populated list. -/
def update_drawing_mode (is_drawing_mode : Bool) (raised_fingers : List FingerState) :
    List Bool :=
  let draw_modes := List.replicate raised_fingers.length false
  if !is_drawing_mode then draw_modes
  else draw_modes ++ raised_fingers.map (fun fingers => fingers.index && !fingers.middle)

/-- VirtualCanvas.get_finger_info reads the intent for hand 0:
draw_modes[0] if draw_modes else False. -/
def will_draw_of (draw_modes : List Bool) : Bool :=
  draw_modes.headD false

/-- HandTracker.normalize_coordinates with image_shape=None: the raw
normalized (x, y) pair. -/
def normalize_coordinates (lm : Landmark) : ℚ × ℚ := (lm.x, lm.y)

/-- The dictionary built by HandTracker.get_finger_positions: it is keyed
only by the two finger names. -/
structure FingerPositions where
  index_finger : Option (ℚ × ℚ)
  middle_finger : Option (ℚ × ℚ)
deriving DecidableEq

/-- One iteration of the hand loop in get_finger_positions: both keys are
re-assigned from the current hand's tip landmarks (TIP 8, TIP 12). -/
def hand_step (pos : FingerPositions) (hand : Hand) : FingerPositions :=
  { pos with
    index_finger := some (normalize_coordinates (hand 8)),
    middle_finger := some (normalize_coordinates (hand 12)) }

/-- HandTracker.get_finger_positions: start from the empty dictionary and
overwrite both finger keys once per detected hand, in detector order. -/
def get_finger_positions (hands : List Hand) : FingerPositions :=
  hands.foldl hand_step ⟨none, none⟩

/-! ## Canvas layers and compositor (src/modules/menu.py) -/

/-- One pixel of a BGRA layer: BGR color plus an alpha channel 0..255. -/
structure Pix where
  color : Color
  alpha : ℤ
deriving DecidableEq

/-- An RGBA raster layer, indexed by integer pixel coordinates (x, y). -/
abbrev Canvas : Type := ℤ × ℤ → Pix

/-- A BGR video frame, indexed by integer pixel coordinates (x, y). -/
abbrev Frame : Type := ℤ × ℤ → Color

/-- menu.py setup(): canvas pixels start as WHITE color with alpha 0. -/
def setup_canvas : Canvas := fun _ => ⟨WHITE, 0⟩

/-- The clear branch of handle_mouse: canvas[:] = 0, then the color planes
are set to WHITE and the alpha plane to 0, for every pixel. -/
def clear_canvas (_old : Canvas) : Canvas := fun _ => ⟨WHITE, 0⟩

/-- One channel of the draw_ui blend: out = frame*(1 - a/255) + layer*(a/255),
followed by the astype(np.uint8) truncation toward zero (the blend of
channels in 0..255 stays in 0..255, so truncation is the rational floor). -/
def blend_channel (f c a : ℤ) : ℤ :=
  ⌊(f : ℚ) * (1 - (a : ℚ) / 255) + (c : ℚ) * ((a : ℚ) / 255)⌋

/-- Blend one layer pixel over one frame pixel, channel-wise, using the
layer pixel's own alpha (draw_ui lines 170-176). -/
def blend_pix (f : Color) (p : Pix) : Color :=
  (blend_channel f.1 p.color.1 p.alpha,
   blend_channel f.2.1 p.color.2.1 p.alpha,
   blend_channel f.2.2 p.color.2.2 p.alpha)

/-- The compositing part of menu.py draw_ui at one pixel: blend the
persistent canvas over the frame, then the preview canvas over the result. -/
def composite_at (f : Frame) (canvas preview_canvas : Canvas) (pt : ℤ × ℤ) : Color :=
  blend_pix (blend_pix (f pt) (canvas pt)) (preview_canvas pt)

/-! ## Rasterization models

OpenCV's drawing primitives are external collaborators (out of scope per the
spec); the spec describes the entry points as rasterizing the given geometry
into the layer at full opacity with the given thickness.  They are modelled
here as painting every pixel within half the thickness of the ideal shape. -/

/-- Squared distance between two integer points, as a rational. -/
def dist2 (a b : ℤ × ℤ) : ℚ :=
  ((a.1 - b.1 : ℤ) : ℚ) ^ 2 + ((a.2 - b.2 : ℤ) : ℚ) ^ 2

/-- Modelled from the spec: squared distance from pixel r to the segment
p-q (the degenerate segment p = q is the single point p). -/
def seg_dist2 (r p q : ℤ × ℤ) : ℚ :=
  if p = q then dist2 r p
  else
    let den : ℚ := dist2 p q
    let tnum : ℚ := (((r.1 - p.1) * (q.1 - p.1) + (r.2 - p.2) * (q.2 - p.2) : ℤ) : ℚ)
    let s : ℚ := max 0 (min 1 (tnum / den))
    (((r.1 : ℚ) - ((p.1 : ℚ) + s * ((q.1 : ℚ) - (p.1 : ℚ)))) ^ 2 +
     ((r.2 : ℚ) - ((p.2 : ℚ) + s * ((q.2 : ℚ) - (p.2 : ℚ)))) ^ 2)

/-- Modelled from the spec: a pixel belongs to the rasterized segment when
it lies within half the thickness of the ideal segment. -/
def on_segment (r p q : ℤ × ℤ) (t : ℚ) : Bool :=
  decide (seg_dist2 r p q ≤ (t / 2) ^ 2)

/-- Modelled from the spec: cv2.line into a BGRA layer, painting the stroke
color at full opacity (alpha 255) over the segment's footprint. -/
def raster_line (p q : ℤ × ℤ) (c : Color) (t : ℤ) (L : Canvas) : Canvas :=
  fun r => if on_segment r p q (t : ℚ) then ⟨c, 255⟩ else L r

/-- Modelled from the spec: cv2.line into the 3-channel BGR canvas of
main.py, painting the stroke color over the segment's footprint. -/
def raster_line_bgr (p q : ℤ × ℤ) (c : Color) (t : ℤ) (L : Frame) : Frame :=
  fun r => if on_segment r p q (t : ℚ) then c else L r

/-- Modelled from the spec: cv2.circle with thickness -1 (filled disc),
used by the eraser in main.py. -/
def raster_disc (center : ℤ × ℤ) (radius : ℤ) (c : Color) (L : Frame) : Frame :=
  fun r => if decide (dist2 r center ≤ ((radius : ℚ)) ^ 2) then c else L r

/-- Modelled from the spec: cv2.rectangle border of thickness t into a BGRA
layer: the four border segments of the axis-aligned rectangle p-q. -/
def raster_rect (p q : ℤ × ℤ) (c : Color) (t : ℤ) (L : Canvas) : Canvas :=
  fun r =>
    if on_segment r (p.1, p.2) (q.1, p.2) (t : ℚ) ||
       on_segment r (q.1, p.2) (q.1, q.2) (t : ℚ) ||
       on_segment r (q.1, q.2) (p.1, q.2) (t : ℚ) ||
       on_segment r (p.1, q.2) (p.1, p.2) (t : ℚ) then ⟨c, 255⟩ else L r

/-- Modelled from the spec: cv2.circle outline of thickness t into a BGRA
layer: pixels whose distance to the center is within t/2 of the radius. -/
def raster_circle (center : ℤ × ℤ) (radius : ℤ) (c : Color) (t : ℤ) (L : Canvas) :
    Canvas :=
  fun r =>
    if decide (dist2 r center ≤ ((radius : ℚ) + (t : ℚ) / 2) ^ 2 ∧
         ((radius : ℚ) - (t : ℚ) / 2 ≤ 0 ∨
          ((radius : ℚ) - (t : ℚ) / 2) ^ 2 ≤ dist2 r center)) then ⟨c, 255⟩ else L r

/-! ## Menu buttons and mouse handler (src/modules/menu.py) -/

/-- menu.py CircleButton. -/
structure CircleButton where
  cx : ℤ
  cy : ℤ
  radius : ℤ
  color : Color
  label : String := ""
  is_pen : Bool := false
deriving DecidableEq

/-- CircleButton.is_over: strict squared-distance containment test. -/
def CircleButton.is_over (b : CircleButton) (x y : ℤ) : Bool :=
  decide ((x - b.cx) ^ 2 + (y - b.cy) ^ 2 < b.radius ^ 2)

/-- menu.py toggle geometry constants. -/
def toggle_radius : ℤ := 30

def board_toggle_x : ℤ := 80

def board_toggle_y : ℤ := 50

def pen_toggle_x : ℤ := 1170

def pen_toggle_y : ℤ := 50

def clear_x : ℤ := pen_toggle_x - 80

def eraser_x : ℤ := clear_x - 80

def color_toggle_x : ℤ := eraser_x - 80

def eraser_y : ℤ := pen_toggle_y

def color_toggle_y : ℤ := pen_toggle_y

def clear_y : ℤ := pen_toggle_y

/-- create_buttons: one color button per entry of COLORS[:8]. -/
def color_buttons : List CircleButton :=
  (COLORS.take 8).enum.map fun ic =>
    { cx := color_toggle_x - 50 - (ic.1 : ℤ) * 55, cy := color_toggle_y,
      radius := 25, color := ic.2 }

/-- create_buttons: pen size buttons for sizes range(5, 30, 5). -/
def pen_buttons : List CircleButton :=
  (List.range 5).map fun i =>
    { cx := pen_toggle_x, cy := pen_toggle_y + 60 + (i : ℤ) * 50,
      radius := 5 + 5 * (i : ℤ), color := (80, 80, 80), is_pen := true }

/-- create_buttons: shape buttons for SHAPES[:3] (the src drawing.py SHAPES
list holds only FREE_DRAW). -/
def shape_buttons : List CircleButton :=
  (SHAPES.take 3).enum.map fun is_ =>
    { cx := board_toggle_x + toggle_radius + 60 + (is_.1 : ℤ) * 80,
      cy := board_toggle_y, radius := 25, color := (60, 60, 60), label := is_.2 }

/-- create_buttons: the clear button. -/
def clear_button : CircleButton :=
  { cx := clear_x, cy := clear_y, radius := 30, color := (100, 100, 100), label := CLEAR }

/-- menu.py is_inside_whiteboard. -/
def is_inside_whiteboard (x y : ℤ) : Bool :=
  decide (50 < x ∧ x < 1070 ∧ 120 < y ∧ y < 700)

/-- The module-level mutable state of menu.py that handle_mouse reads and
writes. -/
structure MenuState where
  canvas : Canvas
  drawing : Bool
  start_x : ℤ
  start_y : ℤ
  x : ℤ
  y : ℤ
  current_color : Color
  brush_size : ℤ
  eraser_size : ℤ
  using_eraser : Bool
  current_shape : String
  hide_board : Bool
  hide_colors : Bool
  hide_pen_sizes : Bool

/-- The initial menu.py module state (globals at load time, canvas from
setup()). -/
def menu_init : MenuState :=
  { canvas := setup_canvas, drawing := false,
    start_x := -1, start_y := -1, x := -1, y := -1,
    current_color := RED, brush_size := 5, eraser_size := 30,
    using_eraser := false, current_shape := FREE_DRAW,
    hide_board := true, hide_colors := true, hide_pen_sizes := true }

/-- The EVENT_LBUTTONDOWN branch of handle_mouse.  Returns the updated state
together with the content button (color / pen-size / shape) whose selection
branch fired, if any. -/
def handle_mouse_down (s0 : MenuState) (mx my : ℤ) :
    MenuState × Option CircleButton :=
  let s := { s0 with x := mx, y := my, start_x := mx, start_y := my, drawing := true }
  if (mx - board_toggle_x) ^ 2 + (my - board_toggle_y) ^ 2 < toggle_radius ^ 2 then
    ({ s with hide_board := !s.hide_board }, none)
  else if s.hide_board then (s, none)
  else
    let s :=
      if (mx - pen_toggle_x) ^ 2 + (my - pen_toggle_y) ^ 2 < toggle_radius ^ 2 then
        { s with hide_pen_sizes := !s.hide_pen_sizes } else s
    let s :=
      if (mx - color_toggle_x) ^ 2 + (my - color_toggle_y) ^ 2 < toggle_radius ^ 2 then
        { s with hide_colors := !s.hide_colors } else s
    let s :=
      if (mx - eraser_x) ^ 2 + (my - eraser_y) ^ 2 < toggle_radius ^ 2 then
        { s with using_eraser := !s.using_eraser } else s
    if clear_button.is_over mx my then
      ({ s with canvas := clear_canvas s.canvas }, none)
    else
      match color_buttons.find? (fun c => c.is_over mx my) with
      | some c => ({ s with current_color := c.color, using_eraser := false }, some c)
      | none =>
        match pen_buttons.find? (fun p => p.is_over mx my) with
        | some p => ({ s with brush_size := p.radius }, some p)
        | none =>
          match shape_buttons.find? (fun sh => sh.is_over mx my) with
          | some sh => ({ s with current_shape := sh.label }, some sh)
          | none => (s, none)

/-- The EVENT_LBUTTONUP branch of handle_mouse: shape commit on release.
int(d**0.5 / 2) for a nonnegative integer d equals Nat.sqrt d / 2. -/
def handle_mouse_up (s0 : MenuState) (mx my : ℤ) : MenuState :=
  let s := { s0 with x := mx, y := my, drawing := false }
  if s.hide_board || s.using_eraser then s
  else if !(s.current_shape = SHAPE_LINE ∨ s.current_shape = SHAPE_RECTANGLE ∨
      s.current_shape = SHAPE_CIRCLE : Bool) then s
  else if !is_inside_whiteboard mx my then s
  else if s.current_shape = SHAPE_LINE then
    { s with canvas := (raster_line (s.start_x, s.start_y) (mx, my)
        s.current_color s.brush_size s.canvas) }
  else if s.current_shape = SHAPE_RECTANGLE then
    { s with canvas := (raster_rect (s.start_x, s.start_y) (mx, my)
        s.current_color s.brush_size s.canvas) }
  else
    let cx := Int.fdiv (s.start_x + mx) 2
    let cy := Int.fdiv (s.start_y + my) 2
    let radius : ℤ :=
      (Nat.sqrt ((mx - s.start_x) ^ 2 + (my - s.start_y) ^ 2).toNat / 2 : ℕ)
    { s with canvas := (raster_circle (cx, cy) radius
        s.current_color s.brush_size s.canvas) }

/-! ## Interaction loop (src/main.py) -/

/-- A free-draw segment drawn in one frame: previous point and current
point, in canvas coordinates. -/
abbrev Seg : Type := (ℤ × ℤ) × (ℤ × ℤ)

/-- main.py canvas geometry for the 1280x720 camera: setup_canvas computes
canvas_size = (height - height*0.20, width - width*0.20) = (576, 1024),
stored as (height, width). -/
def canvas_size : ℤ × ℤ := (576, 1024)

/-- main.py canvas_origin = (height*0.20, width*0.05) = (144, 64),
stored as (y, x). -/
def canvas_origin : ℤ × ℤ := (144, 64)

/-- VirtualCanvas.is_within_canvas. -/
def is_within_canvas (cx cy : ℤ) : Bool :=
  decide (0 ≤ cx ∧ cx < canvas_size.2 ∧ 0 ≤ cy ∧ cy < canvas_size.1)

/-- The drawing-relevant mutable state of the VirtualCanvas application. -/
structure VCState where
  canvas : Frame
  current_color : Color
  brush_size : ℤ
  current_tool : String
  prev_pos : Option (ℤ × ℤ)
  show_canvas : Bool
  show_colors : Bool
  show_brush_sizes : Bool
  is_eraser : Bool
  is_drawing_mode : Bool

/-- The VirtualCanvas initial state: white canvas, color COLORS[0] = red,
brush size 10, free-draw tool, all toggles off. -/
def vc_init : VCState :=
  { canvas := fun _ => WHITE, current_color := RED, brush_size := 10,
    current_tool := FREE_DRAW, prev_pos := none,
    show_canvas := false, show_colors := false, show_brush_sizes := false,
    is_eraser := false, is_drawing_mode := false }

/-- VirtualCanvas.draw_on_canvas: sets the anchor to the current point when
absent, erases a disc of twice the brush size when the eraser is active,
otherwise draws a line from the previous point to the current point, and
finally updates prev_pos.  Also reports the drawn segment (if any). -/
def draw_on_canvas (s : VCState) (cx cy : ℤ) : VCState × Option Seg :=
  let prev := s.prev_pos.getD (cx, cy)
  let c1 := if s.is_eraser then
      raster_disc (cx, cy) (s.brush_size * 2) WHITE s.canvas else s.canvas
  let c2 := if !s.is_eraser then
      raster_line_bgr prev (cx, cy) s.current_color s.brush_size c1 else c1
  let seg : Option Seg := if !s.is_eraser then some (prev, (cx, cy)) else none
  ({ s with canvas := c2, prev_pos := some (cx, cy) }, seg)

/-- VirtualCanvas.handle_drawing: early return when the canvas is hidden or
the finger position is absent; out-of-bounds canvas coordinates discard the
anchor; otherwise draw. -/
def handle_drawing (s : VCState) (finger_pos : Option (ℤ × ℤ)) :
    VCState × Option Seg :=
  match finger_pos with
  | none => (s, none)
  | some p =>
    if !s.show_canvas then (s, none)
    else
      let cx := p.1 - canvas_origin.2
      let cy := p.2 - canvas_origin.1
      if !is_within_canvas cx cy then ({ s with prev_pos := none }, none)
      else draw_on_canvas s cx cy

/-- A button action routed through handle_button_action.  The Board branch
of toggle_ui_states calls toggle_drawing_mode() without its required
argument (a TypeError in the source) and is therefore not modelled. -/
inductive UIEvent where
  | colors_toggle : UIEvent
  | size_toggle : UIEvent
  | eraser_toggle : UIEvent
  | clear_click : UIEvent
  | color_pick : Color → UIEvent
  | size_pick : ℤ → UIEvent
  | shape_pick : String → UIEvent

/-- VirtualCanvas.handle_button_action: toggle_ui_states, select_color,
select_size, select_shape and clear_canvas field updates. -/
def apply_ui (s : VCState) (ev : Option UIEvent) : VCState :=
  match ev with
  | none => s
  | some UIEvent.colors_toggle => { s with show_colors := !s.show_colors }
  | some UIEvent.size_toggle => { s with show_brush_sizes := !s.show_brush_sizes }
  | some UIEvent.eraser_toggle => { s with is_eraser := !s.is_eraser }
  | some UIEvent.clear_click => { s with canvas := fun _ => WHITE }
  | some (UIEvent.color_pick c) => { s with current_color := c, is_eraser := false }
  | some (UIEvent.size_pick r) => { s with brush_size := r }
  | some (UIEvent.shape_pick t) => { s with current_tool := t, is_eraser := false }

/-- The per-frame external input of process_frame: the draw intent the loop
reads for hand 0, the index finger position, and the button action fired by
the UI interaction (if any). -/
structure FrameInput where
  will_draw : Bool
  index_pos : Option (ℤ × ℤ)
  clicked : Option UIEvent

/-- VirtualCanvas.process_frame, drawing-relevant flow: discard the anchor
when draw intent is absent, draw when the tracker's drawing mode and the
intent agree, then dispatch the UI action. -/
def process_frame (s : VCState) (inp : FrameInput) : VCState × Option Seg :=
  let s1 := if inp.will_draw then s else { s with prev_pos := none }
  let r := if s1.is_drawing_mode && inp.will_draw then
      handle_drawing s1 inp.index_pos else (s1, none)
  (apply_ui r.1 inp.clicked, r.2)

/-- Run the interaction loop over a list of frame inputs, collecting the
segments drawn. -/
def run_frames : VCState → List FrameInput → VCState × List Seg
  | s, [] => (s, [])
  | s, i :: rest =>
    let r := process_frame s i
    let rest_r := run_frames r.1 rest
    (rest_r.1, r.2.toList ++ rest_r.2)

/-- A frame on which the interaction loop discards the stroke anchor: draw
intent absent, or (with the drawing path enabled) a finger position whose
canvas coordinates fall outside the canvas bounds. -/
def loses_anchor (s : VCState) (i : FrameInput) : Prop :=
  i.will_draw = false ∨
    (s.is_drawing_mode = true ∧ s.show_canvas = true ∧
      ∃ p, i.index_pos = some p ∧
        is_within_canvas (p.1 - canvas_origin.2) (p.2 - canvas_origin.1) = false)

/-! ## Concrete states used by the witnesses -/

/-- A hand whose landmark k sits at y = -k: every finger is raised. -/
def demo_hand : Hand := fun k => ⟨0, -(k : ℚ)⟩

/-- A hand with all landmarks at the origin. -/
def demo_hand_a : Hand := fun _ => ⟨0, 0⟩

/-- A hand whose landmark k sits at (k, k). -/
def demo_hand_b : Hand := fun k => ⟨(k : ℚ), (k : ℚ)⟩

/-- A small circular button centered at the origin with radius 5. -/
def demo_button : CircleButton := { cx := 0, cy := 0, radius := 5, color := WHITE }

/-- menu.py state with the board shown and the color group still hidden. -/
def menu_s2 : MenuState := { menu_init with hide_board := false }

/-- The first color button created by create_buttons: center (880, 50),
radius 25, color COLORS[0] = red. -/
def color_btn_0 : CircleButton := { cx := 880, cy := 50, radius := 25, color := RED }

/-- menu.py state with the board shown and the line tool selected. -/
def menu_line_s : MenuState :=
  { menu_init with hide_board := false, current_shape := SHAPE_LINE }

/-- A constant demo video frame. -/
def demo_frame : Frame := fun _ => (10, 20, 30)

/-- main.py state mid-stroke: canvas shown, drawing mode on, anchor set. -/
def vc9 : VCState :=
  { vc_init with show_canvas := true, is_drawing_mode := true, prev_pos := some (5, 5) }

/-- A frame input on which draw intent is absent. -/
def loss9 : FrameInput := ⟨false, none, none⟩

/-- A frame input regaining draw intent at pixel (100, 200). -/
def regain9 : FrameInput := ⟨true, some (100, 200), none⟩

/-! ## Helper lemmas -/

theorem blend_channel_zero (f c : ℤ) : blend_channel f c 0 = f := by
  simp [blend_channel]

theorem blend_pix_zero (f : Color) (p : Pix) (h : p.alpha = 0) : blend_pix f p = f := by
  obtain ⟨b, g, r⟩ := f
  simp [blend_pix, h, blend_channel_zero]

theorem foldl_hand_step_last (init : FingerPositions) (hands : List Hand) (h : Hand)
    (hl : hands.getLast? = some h) :
    hands.foldl hand_step init =
      ⟨some (normalize_coordinates (h 8)), some (normalize_coordinates (h 12))⟩ := by
  induction hands generalizing init with
  | nil => simp at hl
  | cons a t ih =>
    cases t with
    | nil =>
      simp [List.getLast?] at hl
      subst hl
      rfl
    | cons b t2 =>
      rw [List.foldl_cons]
      exact ih (hand_step init a) (by simpa using hl)

theorem apply_ui_prev_pos (s : VCState) (ev : Option UIEvent) :
    (apply_ui s ev).prev_pos = s.prev_pos := by
  cases ev with
  | none => rfl
  | some e => cases e <;> rfl

theorem anchor_lost (s : VCState) (i : FrameInput) (h : loses_anchor s i) :
    (process_frame s i).1.prev_pos = none := by
  rcases h with h | ⟨hdm, hsc, p, hp, hw⟩
  · simp [process_frame, h, apply_ui_prev_pos]
  · cases hwd : i.will_draw
    · simp [process_frame, hwd, apply_ui_prev_pos]
    · simp [process_frame, hwd, hdm, hp, handle_drawing, hsc, hw, apply_ui_prev_pos]

theorem draw_on_canvas_fresh (s : VCState) (cx cy : ℤ) (seg : Seg)
    (hprev : s.prev_pos = none)
    (hseg : (draw_on_canvas s cx cy).2 = some seg) : seg.1 = seg.2 := by
  unfold draw_on_canvas at hseg
  by_cases he : s.is_eraser = true
  · simp [he] at hseg
  · simp only [Bool.not_eq_true] at he
    simp [he, hprev] at hseg
    simp [← hseg]

theorem handle_drawing_fresh (s : VCState) (pos : Option (ℤ × ℤ)) (seg : Seg)
    (hprev : s.prev_pos = none)
    (hseg : (handle_drawing s pos).2 = some seg) : seg.1 = seg.2 := by
  cases pos with
  | none => simp [handle_drawing] at hseg
  | some p =>
    cases hsc : s.show_canvas
    · simp [handle_drawing, hsc] at hseg
    · cases hw : is_within_canvas (p.1 - canvas_origin.2) (p.2 - canvas_origin.1)
      · simp [handle_drawing, hsc, hw] at hseg
      · simp [handle_drawing, hsc, hw] at hseg
        exact draw_on_canvas_fresh s _ _ seg hprev hseg

theorem fresh_anchor_degenerate (s : VCState) (i : FrameInput) (seg : Seg)
    (hprev : s.prev_pos = none)
    (hseg : (process_frame s i).2 = some seg) : seg.1 = seg.2 := by
  cases hwd : i.will_draw
  · simp [process_frame, hwd] at hseg
  · cases hdm : s.is_drawing_mode
    · simp [process_frame, hwd, hdm] at hseg
    · simp only [process_frame, hwd, hdm, if_pos, Bool.and_self, if_true] at hseg
      exact handle_drawing_fresh s i.index_pos seg hprev hseg

theorem run_frames_prev_none (s : VCState) (mids : List FrameInput)
    (hprev : s.prev_pos = none) (hmids : ∀ m ∈ mids, m.will_draw = false) :
    (run_frames s mids).1.prev_pos = none := by
  induction mids generalizing s with
  | nil => simpa [run_frames] using hprev
  | cons m rest ih =>
    rw [run_frames]
    exact ih (process_frame s m).1
      (anchor_lost s m (Or.inl (hmids m (by simp))))
      (fun x hx => hmids x (by simp [hx]))

/-! ## Claim theorems -/

/-- C4: a finger is reported raised iff its joint y-coordinates satisfy the
strict chain tip < dip < pip < mcp, and any single inversion of an adjacent
pair forces the result to false. -/
theorem finger_raised_iff (hand : Hand) (j : FingerJoints) :
    (is_finger_raised hand j = true ↔
      ((hand j.tip).y < (hand j.dip).y ∧ (hand j.dip).y < (hand j.pip).y ∧
        (hand j.pip).y < (hand j.mcp).y)) ∧
    ((hand j.dip).y ≤ (hand j.tip).y → is_finger_raised hand j = false) ∧
    ((hand j.pip).y ≤ (hand j.dip).y → is_finger_raised hand j = false) ∧
    ((hand j.mcp).y ≤ (hand j.pip).y → is_finger_raised hand j = false) := by
  refine ⟨by simp [is_finger_raised], ?_, ?_, ?_⟩
  · intro h
    simp only [is_finger_raised, decide_eq_false_iff_not, not_and, not_lt]
    intro h1 h2
    exact absurd h1 (not_lt.mpr h)
  · intro h
    simp only [is_finger_raised, decide_eq_false_iff_not, not_and, not_lt]
    intro h1 h2
    exact absurd h2 (not_lt.mpr h)
  · intro h
    simp only [is_finger_raised, decide_eq_false_iff_not, not_and, not_lt]
    intro h1 h2
    exact h

/-- Witness for C4: on a concrete hand with strictly decreasing landmark
y-coordinates, the index finger is reported raised. -/
theorem finger_raised_iff_demo : is_finger_raised demo_hand INDEX_JOINTS = true :=
  (finger_raised_iff demo_hand INDEX_JOINTS).1.mpr
    (by norm_num [demo_hand, INDEX_JOINTS])

/-- C5: a circular button is hit at a point iff the squared distance to its
center is strictly below the squared radius; the boundary is not a hit. -/
theorem is_over_strict (b : CircleButton) (x y : ℤ) :
    (b.is_over x y = true ↔ (x - b.cx) ^ 2 + (y - b.cy) ^ 2 < b.radius ^ 2) ∧
    ((x - b.cx) ^ 2 + (y - b.cy) ^ 2 = b.radius ^ 2 → b.is_over x y = false) := by
  constructor
  · simp [CircleButton.is_over]
  · intro h
    simp [CircleButton.is_over, h]

/-- Witness for C5: the point (3, 4) lies exactly at distance 5 from the
center of a radius-5 button and is not a hit. -/
theorem is_over_strict_demo : demo_button.is_over 3 4 = false :=
  (is_over_strict demo_button 3 4).2 (by decide)

/-- C1 (failing input): with the drawing-mode toggle enabled and one hand
whose INDEX finger is raised and MIDDLE finger is not, update_drawing_mode
produces [false, true], and the interaction loop reads draw_modes[0] =
false for hand 0, where the claim requires true. -/
theorem draw_modes_off_by_one :
    update_drawing_mode true [⟨true, false⟩] = [false, true] ∧
    will_draw_of (update_drawing_mode true [⟨true, false⟩]) = false := by
  constructor <;> rfl

/-- C10: get_finger_positions returns a dictionary keyed only by the two
finger names, holding the tip positions of the last hand in detector order. -/
theorem last_hand_wins (hands : List Hand) (h : Hand)
    (hl : hands.getLast? = some h) :
    get_finger_positions hands =
      ⟨some (normalize_coordinates (h 8)), some (normalize_coordinates (h 12))⟩ :=
  foldl_hand_step_last ⟨none, none⟩ hands h hl

/-- Witness for C10: with two concrete hands, both reported positions come
from the second hand. -/
theorem last_hand_wins_demo :
    get_finger_positions [demo_hand_a, demo_hand_b] =
      ⟨some ((8 : ℚ), (8 : ℚ)), some ((12 : ℚ), (12 : ℚ))⟩ :=
  (last_hand_wins [demo_hand_a, demo_hand_b] demo_hand_b rfl).trans rfl

/-- C3: draw_ui composites by blending the persistent layer over the frame
and then the preview layer over the result with out = frame*(1-a) +
layer*a; when both layers have alpha 0 everywhere the composited frame
equals the input frame pixel for pixel. -/
theorem composite_zero_alpha (f : Frame) (c pv : Canvas) (pt : ℤ × ℤ) :
    composite_at f c pv pt = blend_pix (blend_pix (f pt) (c pt)) (pv pt) ∧
    ((∀ q, (c q).alpha = 0) → (∀ q, (pv q).alpha = 0) →
      ∀ q, composite_at f c pv q = f q) := by
  refine ⟨rfl, fun hc hp q => ?_⟩
  rw [composite_at, blend_pix_zero _ _ (hc q), blend_pix_zero _ _ (hp q)]

/-- Witness for C3: compositing the blank (alpha-0) canvas and preview over
a concrete frame returns the frame pixel unchanged. -/
theorem composite_zero_alpha_demo :
    composite_at demo_frame setup_canvas setup_canvas (0, 0) = demo_frame (0, 0) :=
  (composite_zero_alpha demo_frame setup_canvas setup_canvas (0, 0)).2
    (fun _ => rfl) (fun _ => rfl) (0, 0)

/-- C7: the clear branch resets every pixel of the persistent layer to the
blank background (white, alpha 0) of setup(), so compositing after clear is
pixel-identical to compositing against a never-drawn canvas. -/
theorem clear_then_composite_blank (L : Canvas) (f : Frame) (pv : Canvas)
    (pt : ℤ × ℤ) :
    clear_canvas L pt = setup_canvas pt ∧
    (clear_canvas L pt).alpha = 0 ∧
    composite_at f (clear_canvas L) pv pt = composite_at f setup_canvas pv pt :=
  ⟨rfl, rfl, rfl⟩

/-- C2 (counterexample): with the board shown but the color group hidden,
a click at the center of the first color button still selects it — hidden
content groups are NOT excluded from the hit-test candidate set. -/
theorem hidden_color_button_selected :
    menu_s2.hide_colors = true ∧
    (handle_mouse_down menu_s2 880 50).2 = some color_btn_0 ∧
    color_btn_0 ∈ color_buttons := by
  refine ⟨rfl, ?_, ?_⟩ <;> decide

/-- C2 (amended): the only visibility gate on content-button hit-testing is
the board toggle: while hide_board is set, no content button (color, pen
size, shape) is ever selected by a click. -/
theorem board_gate_excludes_content (s : MenuState) (mx my : ℤ)
    (hb : s.hide_board = true) :
    (handle_mouse_down s mx my).2 = none := by
  unfold handle_mouse_down
  split_ifs with h1 <;> simp [hb]

/-- Witness for the amended C2: with the board hidden, a click at the first
color button's center selects nothing. -/
theorem board_gate_excludes_content_demo :
    (handle_mouse_down menu_init 880 50).2 = none :=
  board_gate_excludes_content menu_init 880 50 rfl

/-- C6 (counterexample): drawing a free-draw segment from (10, 10) to
(10, 10) on the freshly initialized canvas changes the persistent layer at
(10, 10): the unconditional rasterizer call paints a dot there. -/
theorem zero_length_paints_dot :
    (draw_on_canvas vc_init 10 10).1.canvas (10, 10) ≠ vc_init.canvas (10, 10) := by
  have hc : on_segment (10, 10) (10, 10) (10, 10) ((10 : ℚ)) = true := by
    simp only [on_segment, seg_dist2, if_pos rfl, dist2, decide_eq_true_eq]
    norm_num
  simp [draw_on_canvas, vc_init, raster_line_bgr, hc, RED, WHITE]

/-- C6 (amended): a zero-length free-draw segment is passed to the
rasterizer like any other segment: it paints the current color over the
brush footprint at that point, and leaves pixels outside the footprint
unchanged; it is a no-op only where the layer already holds that color. -/
theorem zero_length_dot (s : VCState) (cx cy : ℤ)
    (he : s.is_eraser = false)
    (hp : s.prev_pos = none ∨ s.prev_pos = some (cx, cy)) :
    (draw_on_canvas s cx cy).1.canvas (cx, cy) = s.current_color ∧
    (∀ r, on_segment r (cx, cy) (cx, cy) (s.brush_size : ℚ) = false →
      (draw_on_canvas s cx cy).1.canvas r = s.canvas r) := by
  have hprev : s.prev_pos.getD (cx, cy) = (cx, cy) := by
    rcases hp with h | h <;> simp [h]
  constructor
  · have hc : on_segment (cx, cy) (cx, cy) (cx, cy) ((s.brush_size : ℤ) : ℚ) = true := by
      simp only [on_segment, seg_dist2, if_pos rfl, dist2, decide_eq_true_eq]
      norm_num
      positivity
    simp [draw_on_canvas, he, hprev, raster_line_bgr, hc]
  · intro r hr
    simp [draw_on_canvas, he, hprev, raster_line_bgr, hr]

/-- Witness for the amended C6: the zero-length segment at (10, 10) on the
initial canvas paints the current color at (10, 10). -/
theorem zero_length_dot_demo :
    (draw_on_canvas vc_init 10 10).1.canvas (10, 10) = vc_init.current_color :=
  (zero_length_dot vc_init 10 10 rfl (Or.inl rfl)).1

/-- C8: for a shape-tool drag, a release outside the whiteboard bounds
cancels the drag and leaves the persistent layer unchanged; the layer can
change only when the release point is inside the bounds. -/
theorem shape_release_bounds (s : MenuState) (mx my : ℤ)
    (hshape : s.current_shape = SHAPE_LINE ∨ s.current_shape = SHAPE_RECTANGLE ∨
      s.current_shape = SHAPE_CIRCLE) :
    (is_inside_whiteboard mx my = false →
      (handle_mouse_up s mx my).canvas = s.canvas ∧
      (handle_mouse_up s mx my).drawing = false) ∧
    ((handle_mouse_up s mx my).canvas ≠ s.canvas →
      is_inside_whiteboard mx my = true) := by
  constructor
  · intro hout
    unfold handle_mouse_up
    split_ifs <;> simp_all
  · intro hchange
    cases hin : is_inside_whiteboard mx my
    · exfalso
      apply hchange
      unfold handle_mouse_up
      split_ifs <;> simp_all
    · rfl

/-- Witness for C8: with the line tool selected, releasing at (0, 0)
(outside the whiteboard) leaves the canvas unchanged and ends the drag. -/
theorem shape_release_bounds_demo :
    (handle_mouse_up menu_line_s 0 0).canvas = menu_line_s.canvas ∧
    (handle_mouse_up menu_line_s 0 0).drawing = false :=
  (shape_release_bounds menu_line_s 0 0 (Or.inl rfl)).1 (by decide)

/-- C9: when the stroke anchor is lost (draw intent absent, or the finger
outside canvas bounds on the drawing path) and draw intent returns on a
later frame, the anchor is discarded at the loss and the first segment
drawn after the recovery is degenerate — no segment connects the last
point before the loss to the first point after the recovery. -/
theorem anchor_reset_no_jump (s : VCState) (loss_in : FrameInput)
    (mids : List FrameInput) (regain_in : FrameInput) (seg : Seg)
    (hloss : loses_anchor s loss_in)
    (hmids : ∀ m ∈ mids, m.will_draw = false)
    (hseg : (process_frame (run_frames (process_frame s loss_in).1 mids).1
      regain_in).2 = some seg) :
    (process_frame s loss_in).1.prev_pos = none ∧ seg.1 = seg.2 := by
  have h1 := anchor_lost s loss_in hloss
  have h2 := run_frames_prev_none (process_frame s loss_in).1 mids h1 hmids
  exact ⟨h1, fresh_anchor_degenerate _ regain_in seg h2 hseg⟩

/-- Witness for C9: losing intent for one frame and regaining it at pixel
(100, 200) discards the anchor and draws only the degenerate segment at
canvas point (36, 56). -/
theorem anchor_reset_no_jump_demo :
    (process_frame vc9 loss9).1.prev_pos = none ∧
    ((((36 : ℤ), (56 : ℤ)), ((36 : ℤ), (56 : ℤ))) : Seg).1 =
      ((((36 : ℤ), (56 : ℤ)), ((36 : ℤ), (56 : ℤ))) : Seg).2 :=
  anchor_reset_no_jump vc9 loss9 [] regain9 (((36, 56), (36, 56)) : Seg)
    (Or.inl rfl) (by simp) (by decide)

end MekusCanvas
